import Mathlib

/-!
# Verification of the wpotp number-resale backend

Shallow embedding of the core of `src/api/index.js` (the most evolved of the
four near-duplicate Express apps in the repository): the prepaid-wallet ledger
(`deductBalance`, `refundBalance`), the commission engine
(`calculatePriceWithCommission`, `updateResellerStats`) and the rental state
machine (the `/api/getNumber`, `/api/getOtp`, `/api/cancelNumber` handlers).

Modelling conventions:
* Firebase Realtime Database state relevant to one request is collected in a
  `Db` record (the requesting user's record, the single `activeTransactions`
  slot for that user, the `userHistory` list, the `resellers` table and the
  `resellerSales` ledger).  History is append-only;
  `orderByChild('transactionId').equalTo(id)` followed by `keys[0]` is
  modelled as "update the first list entry with that transaction id".
* Authentication (`getUserByApiKey` / `getUserByToken`) is modelled as
  already resolved: the handlers below receive the authenticated account in
  `db.user` (no claim concerns the 401 path).
* JS numbers holding currency are integers throughout the source; they are
  embedded as `Int` (wallets can in principle be any integer — whether they
  can go negative is a theorem, not an assumption).  `Math.round` on a
  non-negative quotient is embedded exactly as `⌊q + 1/2⌋` over `ℚ`.
* A provider HTTP call is embedded by passing the provider's response text as
  an explicit argument to the part of the handler that runs after the call.
  Each handler is split at its provider call(s): the code before the call
  cannot depend on the response, which makes "the provider is never called on
  this path" provable as "the result does not depend on the response".
-/

namespace Wpotp

/-! ## Accounts (the `users/<uid>` record, fields used by the core) -/

/-- The per-user record at `users/<uid>` (fields the core reads/writes):
wallet balance, the four lifetime counters, and the stored referrer. -/
structure Account where
  uid : String
  wallet : Int
  apiRequests : Int
  apiSuccess : Int
  apiFailed : Int
  totalSpent : Int
  referredBy : Option String
  deriving Repr, DecidableEq

/-- The `userData` record as written by the `/api/register` handler
(src/api/index.js:1327-1337): zero wallet, all counters zero, `referredBy`
set only when a supplied code resolved to a reseller. -/
def registerUserData (uid : String) (referredBy : Option String) : Account :=
  { uid := uid
    wallet := 0
    apiRequests := 0
    apiSuccess := 0
    apiFailed := 0
    totalSpent := 0
    referredBy := referredBy }

/-! ## Sequential ledger (src/api/index.js:117-168)

`deductBalance` reads the wallet, fails (throws) if `balance < amount`, else
writes `balance - amount` and bumps `apiRequests`, `apiSuccess`,
`totalSpent`.  `refundBalance` reads the wallet, writes `balance + amount`
and bumps `apiFailed`.  The sequential embedding returns the updated account
and the new balance; `none` models the thrown `Insufficient balance` error
(the caller's state is unchanged in that case). -/

/-- Embeds `deductBalance(uid, amount)` (src/api/index.js:117-148), sequential view. -/
def deductBalance (a : Account) (amount : Int) : Option (Account × Int) :=
  if a.wallet < amount then none
  else
    let newBalance := a.wallet - amount
    some ({ a with
              wallet := newBalance
              apiRequests := a.apiRequests + 1
              apiSuccess := a.apiSuccess + 1
              totalSpent := a.totalSpent + amount },
          newBalance)

/-- Embeds `refundBalance(uid, amount)` (src/api/index.js:150-168), sequential view. -/
def refundBalance (a : Account) (amount : Int) : Account × Int :=
  let newBalance := a.wallet + amount
  ({ a with
       wallet := newBalance
       apiFailed := a.apiFailed + 1 },
   newBalance)

/-! ## Commission engine (src/api/index.js:175-211) -/

/-- JavaScript `Math.round` on a (non-negative, in all uses here) rational:
round half toward positive infinity, i.e. `⌊x + 1/2⌋`. -/
def jsMathRound (x : ℚ) : Int :=
  ⌊x + 1 / 2⌋

/-- Embeds `calculatePriceWithCommission(basePrice, commissionPercent)`
(src/api/index.js:175-178): `basePrice + Math.round(basePrice * pct / 100)`. -/
def calculatePriceWithCommission (basePrice commissionPercent : Int) : Int :=
  basePrice + jsMathRound ((basePrice * commissionPercent : Int) / (100 : ℚ))

/-- JavaScript `x || d` on an optionally-present number: `d` when `x` is
absent *or zero* (0 is falsy in JS). -/
def jsNumOr (x : Option Int) (d : Int) : Int :=
  match x with
  | some v => if v = 0 then d else v
  | none => d

/-- A `resellers/<id>` record (fields the core reads/writes). -/
structure Reseller where
  userId : String
  commissionPercent : Option Int
  wallet : Int
  totalSales : Int
  totalCommission : Int
  referralCount : Int
  lastSale : Int
  deriving Repr, DecidableEq

/-- The `snapshot.val() || {}` default used by `updateResellerStats` when the
record is missing: every numeric field reads as 0. -/
def emptyReseller : Reseller :=
  { userId := ""
    commissionPercent := none
    wallet := 0
    totalSales := 0
    totalCommission := 0
    referralCount := 0
    lastSale := 0 }

/-- Embeds `updateResellerStats(resellerId, amount, commission)`
(src/api/index.js:191-211), the per-record update: pending `wallet` grows by
the commission, `totalSales` by the sale amount, `totalCommission` by the
commission, `referralCount` by one, `lastSale := Date.now()`. -/
def updateResellerStats (r : Reseller) (amount commission now : Int) : Reseller :=
  { r with
      wallet := r.wallet + commission
      totalSales := r.totalSales + amount
      totalCommission := r.totalCommission + commission
      referralCount := r.referralCount + 1
      lastSale := now }

/-! ## JS string operations used by the handlers -/

/-- Do the characters of `l` begin with the characters of `sub`? -/
def listStart : List Char → List Char → Bool
  | _, [] => true
  | [], _ :: _ => false
  | c :: cs, d :: ds => c == d && listStart cs ds

/-- Does `sub` occur as a contiguous run inside `l`? -/
def containsSub : List Char → List Char → Bool
  | [], sub => sub.isEmpty
  | c :: rest, sub => listStart (c :: rest) sub || containsSub rest sub

/-- JavaScript `s.includes(sub)` (the only uses are the literal tokens
`'ACCESS_NUMBER'`, `'NO_NUMBERS'`, `'NO_BALANCE'`). -/
def jsIncludes (s sub : String) : Bool :=
  containsSub s.toList sub.toList

/-- Split a character list on a separator character; the JS
`String.prototype.split` semantics for a single-character separator
(`''.split(c) = ['']`, separators at the ends produce empty pieces). -/
def splitOnChar (sep : Char) : List Char → List (List Char)
  | [] => [[]]
  | c :: rest =>
      if c == sep then [] :: splitOnChar sep rest
      else
        match splitOnChar sep rest with
        | [] => [[c]]
        | h :: t => (c :: h) :: t

/-- JavaScript `data.split(':')` (src/api/index.js:907). -/
def jsSplit (s : String) (sep : Char) : List String :=
  (splitOnChar sep s.toList).map (fun l => String.mk l)

/-- A JS word character (`\w` = `[A-Za-z0-9_]`), as used by the `\b`
boundaries in the OTP regex. -/
def jsWordChar (c : Char) : Bool :=
  c.isAlphanum || c == '_'

/-- Does the regex `\b\d{6}\b` match at the head of `l`, given that the
character to the left is a non-word character or the start of the string?
Requires six leading ASCII digits followed by a non-word character or the
end of the string. -/
def otpMatchHere (l : List Char) : Bool :=
  6 ≤ l.length && (l.take 6).all Char.isDigit &&
    (match l.drop 6 with
     | [] => true
     | d :: _ => !jsWordChar d)

/-- Left-to-right scan for the first match of `\b\d{6}\b`; `prevWord` says
whether the character immediately to the left is a word character (so a `\b`
boundary sits before the current position iff `prevWord = false`, since the
matched characters are digits). -/
def otpScan (prevWord : Bool) : List Char → Option String
  | [] => none
  | c :: rest =>
      if !prevWord && otpMatchHere (c :: rest) then
        some (String.mk ((c :: rest).take 6))
      else
        otpScan (jsWordChar c) rest

/-- Embeds the regex match `data.match(...)` with pattern `\b\d{6}\b` used by the `/api/getOtp` and
`/api/cancelNumber` handlers (src/api/index.js:1059,1127): the first run of
exactly six digits delimited by word boundaries, or `none`. -/
def otpMatch (data : String) : Option String :=
  otpScan false data.toList

/-! ## Association-list helpers for the keyed Firebase collections -/

/-- First-match lookup in a keyed collection (`ref('x/' + key)` read). -/
def lookupAssoc {α : Type} (l : List (String × α)) (k : String) : Option α :=
  (l.find? (fun p => p.1 == k)).map (fun p => p.2)

/-- Replace the value at the first occurrence of key `k` (point write). -/
def setAssoc {α : Type} : List (String × α) → String → α → List (String × α)
  | [], _, _ => []
  | p :: rest, k, v =>
      if p.1 == k then (k, v) :: rest else p :: setAssoc rest k v

/-! ## Service catalog (src/api/index.js:52-64) -/

/-- One entry of the static `countries` table. -/
structure Service where
  code : String
  name : String
  country : String
  price : Int
  flag : String
  deriving Repr, DecidableEq

/-- The `countries` catalog (src/api/index.js:52-64), verbatim. -/
def countries : List (String × Service) :=
  [ ("philippines_51", { code := "51", name := "WhatsApp Philippines", country := "Philippines", price := 52, flag := "🇵🇭" })
  , ("india_115", { code := "115", name := "WhatsApp Indian", country := "India", price := 103, flag := "🇮🇳" })
  , ("vietnam_118", { code := "118", name := "WhatsApp Vietnam", country := "Vietnam", price := 61, flag := "🇻🇳" })
  , ("india_66", { code := "66", name := "WhatsApp Indian", country := "India", price := 140, flag := "🇮🇳" })
  , ("fire_premium_106", { code := "106", name := "Fire Server Premium 1", country := "India", price := 79, flag := "🇮🇳" })
  , ("southafrica_52", { code := "52", name := "WhatsApp South Africa", country := "South Africa", price := 45, flag := "🇿🇦" })
  , ("colombia_53", { code := "53", name := "WhatsApp Colombia", country := "Colombia", price := 71, flag := "🇨🇴" })
  , ("philippines2_117", { code := "117", name := "WhatsApp Philippines 2", country := "Philippines", price := 64, flag := "🇵🇭" })
  , ("indonesia_54", { code := "54", name := "WhatsApp Indonesia", country := "Indonesia", price := 49, flag := "🇮🇩" })
  , ("telegram_usa_123", { code := "123", name := "Telegram USA", country := "USA", price := 65, flag := "🇺🇸" })
  , ("telegram_usa2_124", { code := "124", name := "Telegram USA 2", country := "USA", price := 92, flag := "🇺🇸" }) ]

/-! ## Rental data model -/

/-- The single `activeTransactions/<uid>` slot written by `/api/getNumber`
(src/api/index.js:916-927). -/
structure ActiveTx where
  id : String
  number : String
  service : String
  price : Int
  basePrice : Int
  commission : Int
  resellerId : Option String
  startTime : Int
  expiresAt : Int
  deriving Repr, DecidableEq

/-- One `userHistory/<uid>` record (src/api/index.js:930-943), including the
fields later merged in by the poll/cancel/expire updates. -/
structure HistRec where
  transactionId : String
  number : String
  service : String
  country : String
  price : Int
  basePrice : Int
  commission : Int
  resellerId : Option String
  status : String
  timestamp : Int
  expiresAt : Int
  otp : Option String
  refundAmount : Option Int
  cancelledAt : Option Int
  completedAt : Option Int
  deriving Repr, DecidableEq

/-- One `resellerSales/<resellerId>/<saleId>` record
(src/api/index.js:950-961). -/
structure SaleRec where
  resellerId : String
  userId : String
  service : String
  amount : Int
  commission : Int
  transactionId : String
  timestamp : Int
  deriving Repr, DecidableEq

/-- The Firebase state touched by one authenticated request: the requesting
user's record, that user's single active-transaction slot and history list,
the `resellers` table and the `resellerSales` ledger. -/
structure Db where
  user : Account
  activeTx : Option ActiveTx
  history : List HistRec
  resellers : List (String × Reseller)
  resellerSales : List SaleRec
  deriving Repr, DecidableEq

/-- Update the first history record whose `transactionId` equals `id`
(models `orderByChild('transactionId').equalTo(id)` + `keys[0]` + `update`;
a silent no-op when no record matches, as in the source's
`if (snapshot.exists())`). -/
def updateFirstHist (f : HistRec → HistRec) (id : String) :
    List HistRec → List HistRec
  | [] => []
  | h :: rest =>
      if h.transactionId == id then f h :: rest
      else h :: updateFirstHist f id rest

/-- The history update on the expiry paths (src/api/index.js:1043-1046 and
1148-1151): `status := 'expired'`, `cancelledAt := Date.now()`. -/
def markHistExpired (hist : List HistRec) (id : String) (now : Int) : List HistRec :=
  updateFirstHist (fun h => { h with status := "expired", cancelledAt := some now }) id hist

/-- The history update when an OTP arrives (src/api/index.js:1070-1074):
`status := 'success'`, `otp := code`, `completedAt := Date.now()`. -/
def markHistSuccess (hist : List HistRec) (id code : String) (now : Int) : List HistRec :=
  updateFirstHist (fun h => { h with status := "success", otp := some code, completedAt := some now }) id hist

/-- The history update on user cancellation (src/api/index.js:1177-1181):
`status := 'cancelled'`, `cancelledAt := Date.now()`, `refundAmount`. -/
def markHistCancelled (hist : List HistRec) (id : String) (refund now : Int) : List HistRec :=
  updateFirstHist (fun h => { h with status := "cancelled", cancelledAt := some now, refundAmount := some refund }) id hist

/-- The 15-minute TTL in milliseconds (`15 * 60 * 1000`). -/
def ttlMs : Int := 15 * 60 * 1000

/-! ## `/api/getNumber` (src/api/index.js:826-1002)

The handler is split at its provider call (`axios.get(...)`,
src/api/index.js:901).  `getNumberPhase1` is everything before the call —
parameter validation, referral resolution, commission computation, the
first-attribution `referredBy` persistence and the balance check; on an early
error the provider is never contacted.  `getNumberPhase2` is the code after
the call, receiving the provider's response text. -/

/-- Early (pre-provider) failures of `/api/getNumber`. -/
inductive GetNumberEarly where
  /-- HTTP 400, `Country parameter required`. -/
  | missingCountry : GetNumberEarly
  /-- HTTP 400, `Invalid service`. -/
  | invalidService : GetNumberEarly
  /-- HTTP 402, `Insufficient balance`. -/
  | insufficientFunds : GetNumberEarly
  deriving Repr, DecidableEq

/-- Everything the post-provider half of the handler needs. -/
structure PurchaseCtx where
  country : String
  service : Service
  finalPrice : Int
  commission : Int
  resellerId : Option String
  deriving Repr, DecidableEq

/-- Referral resolution and commission computation
(src/api/index.js:853-889).  `referralCode = ref || user.referredBy ||
<ref parsed from the Referer header>`; an unresolved code silently falls
back to the base price; on a resolved code the final price is marked up by
`commissionPercent || 15` and, if the user had no stored referrer yet,
`referredBy` is persisted (note: this write happens before the balance
check).  Returns the (possibly updated) state together with
`(finalPrice, commission, resellerId)`. -/
def resolveReferral (db : Db) (ref refererRef : Option String) (basePrice : Int) :
    Db × Int × Int × Option String :=
  let referralCode := (ref.orElse fun _ => db.user.referredBy).orElse fun _ => refererRef
  match referralCode with
  | none => (db, basePrice, 0, none)
  | some code =>
      match lookupAssoc db.resellers code with
      | none => (db, basePrice, 0, none)
      | some reseller =>
          let finalPrice :=
            calculatePriceWithCommission basePrice (jsNumOr reseller.commissionPercent 15)
          let commission := finalPrice - basePrice
          let db1 :=
            if db.user.referredBy = none then
              { db with user := { db.user with referredBy := some code } }
            else db
          (db1, finalPrice, commission, some code)

/-- Phase 1 of `/api/getNumber`: everything up to (not including) the provider call
(src/api/index.js:826-897): country validation, service lookup, referral
resolution, balance check against the final price. -/
def getNumberPhase1 (db : Db) (countryParam ref refererRef : Option String) :
    Db × Except GetNumberEarly PurchaseCtx :=
  match countryParam with
  | none => (db, Except.error GetNumberEarly.missingCountry)
  | some country =>
      match lookupAssoc countries country with
      | none => (db, Except.error GetNumberEarly.invalidService)
      | some service =>
          let r := resolveReferral db ref refererRef service.price
          let db1 := r.1
          let finalPrice := r.2.1
          if db1.user.wallet < finalPrice then
            (db1, Except.error GetNumberEarly.insufficientFunds)
          else
            (db1, Except.ok
              { country := country
                service := service
                finalPrice := finalPrice
                commission := r.2.2.1
                resellerId := r.2.2.2 })

/-- Result of `/api/getNumber`. -/
inductive GetNumberOutcome where
  /-- One of the pre-provider failures (400/401/402); the provider is never
  contacted on these paths. -/
  | earlyError : GetNumberEarly → GetNumberOutcome
  /-- Provider said `ACCESS_NUMBER` but with fewer than 3 `:`-fields. -/
  | invalidProviderFmt : GetNumberOutcome
  /-- Provider said `NO_NUMBERS`. -/
  | noNumbers : GetNumberOutcome
  /-- Provider said `NO_BALANCE`. -/
  | providerNoBalance : GetNumberOutcome
  /-- Any other provider response, echoed back raw. -/
  | providerOther : String → GetNumberOutcome
  /-- Case where `deductBalance` threw after the provider granted a number; the
  handler's catch block answers 500. -/
  | internalError : GetNumberOutcome
  /-- Number purchased: transaction id, phone number, final price charged,
  new wallet balance. -/
  | purchased : String → String → Int → Int → GetNumberOutcome
  deriving Repr, DecidableEq

/-- Phase 2 of `/api/getNumber`: the code from the provider response onward
(src/api/index.js:904-1001): on `ACCESS_NUMBER` with at least three
`:`-fields, debit the final price, overwrite the active slot, append a
history record and, when a commission applies, update the reseller record
and append a `resellerSales` entry; otherwise map the provider's answer to
a failure response with no state change. -/
def getNumberPhase2 (db : Db) (ctx : PurchaseCtx) (providerData : String) (now : Int) :
    Db × GetNumberOutcome :=
  if jsIncludes providerData "ACCESS_NUMBER" then
    let parts := jsSplit providerData ':'
    if 3 ≤ parts.length then
      let transactionId := parts.getD 1 ""
      let phoneNumber := parts.getD 2 ""
      match deductBalance db.user ctx.finalPrice with
      | none => (db, GetNumberOutcome.internalError)
      | some (user1, newBalance) =>
          let tx : ActiveTx :=
            { id := transactionId
              number := phoneNumber
              service := ctx.country
              price := ctx.finalPrice
              basePrice := ctx.service.price
              commission := ctx.commission
              resellerId := ctx.resellerId
              startTime := now
              expiresAt := now + ttlMs }
          let hist : HistRec :=
            { transactionId := transactionId
              number := phoneNumber
              service := ctx.service.name
              country := ctx.service.country
              price := ctx.finalPrice
              basePrice := ctx.service.price
              commission := ctx.commission
              resellerId := ctx.resellerId
              status := "active"
              timestamp := now
              expiresAt := now + ttlMs
              otp := none
              refundAmount := none
              cancelledAt := none
              completedAt := none }
          let db1 : Db :=
            { db with
                user := user1
                activeTx := some tx
                history := db.history ++ [hist] }
          let db2 : Db :=
            match ctx.resellerId with
            | some rid =>
                if 0 < ctx.commission then
                  let resellers1 :=
                    match lookupAssoc db1.resellers rid with
                    | some r =>
                        setAssoc db1.resellers rid
                          (updateResellerStats r ctx.finalPrice ctx.commission now)
                    | none =>
                        db1.resellers ++
                          [(rid, updateResellerStats emptyReseller ctx.finalPrice ctx.commission now)]
                  { db1 with
                      resellers := resellers1
                      resellerSales := db1.resellerSales ++
                        [{ resellerId := rid
                           userId := db.user.uid
                           service := ctx.service.name
                           amount := ctx.finalPrice
                           commission := ctx.commission
                           transactionId := transactionId
                           timestamp := now }] }
                else db1
            | none => db1
          (db2, GetNumberOutcome.purchased transactionId phoneNumber ctx.finalPrice newBalance)
    else (db, GetNumberOutcome.invalidProviderFmt)
  else if jsIncludes providerData "NO_NUMBERS" then
    (db, GetNumberOutcome.noNumbers)
  else if jsIncludes providerData "NO_BALANCE" then
    (db, GetNumberOutcome.providerNoBalance)
  else
    (db, GetNumberOutcome.providerOther providerData)

/-- The whole `/api/getNumber` handler (src/api/index.js:826-1002):
phase 1, then — only if phase 1 did not early-return — the provider call and
phase 2. -/
def getNumber (db : Db) (countryParam ref refererRef : Option String)
    (providerData : String) (now : Int) : Db × GetNumberOutcome :=
  match getNumberPhase1 db countryParam ref refererRef with
  | (db1, Except.error e) => (db1, GetNumberOutcome.earlyError e)
  | (db1, Except.ok ctx) => getNumberPhase2 db1 ctx providerData now

/-! ## `/api/getOtp` (src/api/index.js:1004-1091) -/

/-- Result of `/api/getOtp`. -/
inductive GetOtpOutcome where
  /-- HTTP 404, `Transaction not found` (no active slot or id mismatch). -/
  | notFound : GetOtpOutcome
  /-- Response `success: false`, `Time expired. Number auto-cancelled.`; the slot was
  removed and the history record marked expired. -/
  | expired : GetOtpOutcome
  /-- Response `success: true` with the (possibly absent) OTP and `timeLeft` in
  seconds (`Math.max(0, (900000 - elapsed) / 1000)` — float division). -/
  | polled : Option String → ℚ → GetOtpOutcome
  deriving Repr, DecidableEq

/-- The `/api/getOtp` handler (src/api/index.js:1004-1091).  The TTL check
runs before the provider status call, so the `expired` path neither
contacts the provider nor depends on `providerData`. -/
def getOtp (db : Db) (id : String) (now : Int) (providerData : String) :
    Db × GetOtpOutcome :=
  match db.activeTx with
  | none => (db, GetOtpOutcome.notFound)
  | some tx =>
      if tx.id ≠ id then (db, GetOtpOutcome.notFound)
      else
        let timeElapsed := now - tx.startTime
        if ttlMs < timeElapsed then
          ({ db with
               activeTx := none
               history := markHistExpired db.history id now },
           GetOtpOutcome.expired)
        else
          let timeLeft : ℚ := max 0 ((ttlMs - timeElapsed : Int) / (1000 : ℚ))
          match otpMatch providerData with
          | some code =>
              ({ db with
                   activeTx := none
                   history := markHistSuccess db.history id code now },
               GetOtpOutcome.polled (some code) timeLeft)
          | none => (db, GetOtpOutcome.polled none timeLeft)

/-! ## `/api/cancelNumber` (src/api/index.js:1093-1196) -/

/-- Result of `/api/cancelNumber`. -/
inductive CancelOutcome where
  /-- HTTP 404, `Transaction not found`. -/
  | notFound : CancelOutcome
  /-- Response `success: false`, `Cannot cancel. OTP already received.`, carrying the
  OTP back to the caller; no state change. -/
  | cannotCancel : String → CancelOutcome
  /-- Response `success: true`, `Number expired and auto-cancelled`, `refundAmount:
  0`; slot removed, history marked expired. -/
  | expiredAutoCancel : CancelOutcome
  /-- Response `success: true`, `Number cancelled successfully`: refund amount and
  `Math.floor(timeLeft / 1000)`. -/
  | cancelled : Int → Int → CancelOutcome
  deriving Repr, DecidableEq

/-- The `/api/cancelNumber` handler (src/api/index.js:1093-1196).  Order of
checks, as in the source: slot/id match, then the provider status re-check
(an arrived OTP blocks cancellation), then the TTL check (expired ⇒ zero
refund), else provider-side cancel, full refund of `activeTransaction.price`,
history update, slot removal. -/
def cancelNumber (db : Db) (id : String) (now : Int) (providerData : String) :
    Db × CancelOutcome :=
  match db.activeTx with
  | none => (db, CancelOutcome.notFound)
  | some tx =>
      if tx.id ≠ id then (db, CancelOutcome.notFound)
      else
        match otpMatch providerData with
        | some code => (db, CancelOutcome.cannotCancel code)
        | none =>
            let timeElapsed := now - tx.startTime
            let timeLeft := ttlMs - timeElapsed
            if timeLeft ≤ 0 then
              ({ db with
                   activeTx := none
                   history := markHistExpired db.history id now },
               CancelOutcome.expiredAutoCancel)
            else
              let price := tx.price
              let refundAmount := price
              let user1 := (refundBalance db.user price).1
              ({ db with
                   user := user1
                   activeTx := none
                   history := markHistCancelled db.history id refundAmount now },
               CancelOutcome.cancelled refundAmount (timeLeft / 1000))

/-! ## Fine-grained (interleavable) ledger model

`deductBalance` and `refundBalance` are *not* transactional in the source:
each performs a plain read of `users/<uid>/wallet` (`once('value')`,
src/api/index.js:120/153) followed by a plain write (`set(newBalance)`,
src/api/index.js:128/157), with the insufficiency check and the subtraction
done on the JS side against the value read.  Two requests for the same
account may interleave arbitrarily between the read and the write.  The model
below gives each in-flight ledger operation a program counter: `start`
(before its read), `readDone obs` (after reading balance `obs`, before its
write), and the terminal `ok` / `failed`.  The wallet write stores
`obs - amount` (resp. `obs + amount`) — the value computed from the possibly
stale read, exactly as `set(newBalance)` does. -/

/-- Kind of an in-flight ledger operation: a debit (`deductBalance`) or a
credit (`refundBalance`). -/
inductive TxKind where
  | debit : TxKind
  | credit : TxKind
  deriving Repr, DecidableEq

/-- Program counter of one in-flight ledger operation. -/
inductive TxPc where
  /-- Before the `once('value')` read. -/
  | start : TxPc
  /-- After the read: `obs` is the balance value this operation observed. -/
  | readDone : Int → TxPc
  /-- Finished successfully (its `set` happened, or nothing left to do). -/
  | ok : TxPc
  /-- Case where `deductBalance` threw `Insufficient balance` (no write happened). -/
  | failed : TxPc
  deriving Repr, DecidableEq

/-- One in-flight ledger operation against a fixed account. -/
structure LTx where
  kind : TxKind
  amount : Int
  pc : TxPc
  deriving Repr, DecidableEq

/-- One atomic step of one ledger operation against the shared wallet:
either its read (store the current wallet in `readDone`) or its
check-and-write (compare the *observed* balance with the amount, and write
`obs ± amount` computed from that observation).  Terminal operations do
nothing. -/
def txStep (wallet : Int) (t : LTx) : Int × LTx :=
  match t.pc with
  | TxPc.start => (wallet, { t with pc := TxPc.readDone wallet })
  | TxPc.readDone obs =>
      match t.kind with
      | TxKind.debit =>
          if obs < t.amount then (wallet, { t with pc := TxPc.failed })
          else (obs - t.amount, { t with pc := TxPc.ok })
      | TxKind.credit => (obs + t.amount, { t with pc := TxPc.ok })
  | TxPc.ok => (wallet, t)
  | TxPc.failed => (wallet, t)

/-- The shared wallet plus the set of in-flight ledger operations, indexed
by `Nat`. -/
structure LedgerSys where
  wallet : Int
  txs : Nat → LTx

/-- Let operation `i` take its next atomic step. -/
def sysStep (s : LedgerSys) (i : Nat) : LedgerSys :=
  let r := txStep s.wallet (s.txs i)
  { wallet := r.1, txs := Function.update s.txs i r.2 }

/-- Run a schedule (an arbitrary interleaving: the list of which operation
steps next). -/
def runSched (s : LedgerSys) (sched : List Nat) : LedgerSys :=
  sched.foldl sysStep s

/-- The observation stored in a program counter, when there is one, is
non-negative. -/
def pcObsOk : TxPc → Prop
  | TxPc.readDone obs => 0 ≤ obs
  | _ => True

/-- Well-formedness of one in-flight operation: its amount is non-negative
and any observation it has stored is non-negative. -/
def TxOk (t : LTx) : Prop :=
  0 ≤ t.amount ∧ pcObsOk t.pc

/-- System invariant: the wallet and every stored observation are
non-negative (amounts non-negative throughout). -/
def SysInv (s : LedgerSys) : Prop :=
  0 ≤ s.wallet ∧ ∀ i : Nat, TxOk (s.txs i)

/-! ## Sequences of sequential ledger operations (for the counter claims) -/

/-- One ledger operation as invoked by the handlers: a debit
(`deductBalance`) or a credit (`refundBalance`). -/
inductive LedgerOp where
  | debit : Int → LedgerOp
  | refund : Int → LedgerOp
  deriving Repr, DecidableEq

/-- Apply one ledger operation to an account; a failed debit (thrown
`Insufficient balance` error) leaves the account unchanged. -/
def applyLedgerOp (a : Account) : LedgerOp → Account
  | LedgerOp.debit amount =>
      match deductBalance a amount with
      | some r => r.1
      | none => a
  | LedgerOp.refund amount => (refundBalance a amount).1

/-- Apply a sequence of ledger operations left to right. -/
def applyLedgerOps (a : Account) (ops : List LedgerOp) : Account :=
  ops.foldl applyLedgerOp a

/-! ## Spec-side definitions (for refinement claims only)

These follow the spec's words, not the source, and exist solely to be
compared against the source-derived definitions. -/

/-- Round-half-up integer rounding of `num / den`, in the spec's sense
(`round(basePrice * pct / 100)` with round-half-up): add half the
denominator, then truncate. -/
def specRoundHalfUp (num den : ℕ) : ℕ :=
  (num + den / 2) / den

/-! ## Concrete states used by witnesses and counterexamples -/

/-- A fresh account with balance 103 and no referrer (round-trip scenario). -/
def c1Db : Db :=
  { user := { uid := "u1", wallet := 103, apiRequests := 0, apiSuccess := 0,
              apiFailed := 0, totalSpent := 0, referredBy := none }
    activeTx := none
    history := []
    resellers := []
    resellerSales := [] }

/-- An account with balance 100 (insufficient for `india_115` at 103). -/
def c3Db : Db :=
  { user := { uid := "u3", wallet := 100, apiRequests := 2, apiSuccess := 1,
              apiFailed := 1, totalSpent := 50, referredBy := none }
    activeTx := none
    history := []
    resellers := []
    resellerSales := [] }

/-- An active rental acquired at time 0 (so expired at any poll after
`ttlMs`). -/
def c4Tx : ActiveTx :=
  { id := "T4", number := "444", service := "india_115", price := 103,
    basePrice := 103, commission := 0, resellerId := none,
    startTime := 0, expiresAt := 900000 }

/-- The history record written when `c4Tx` was acquired. -/
def c4Hist : HistRec :=
  { transactionId := "T4", number := "444", service := "WhatsApp Indian",
    country := "India", price := 103, basePrice := 103, commission := 0,
    resellerId := none, status := "active", timestamp := 0,
    expiresAt := 900000, otp := none, refundAmount := none,
    cancelledAt := none, completedAt := none }

/-- State with the active rental `c4Tx` and its history record. -/
def c4Db : Db :=
  { user := { uid := "u4", wallet := 0, apiRequests := 1, apiSuccess := 1,
              apiFailed := 0, totalSpent := 103, referredBy := none }
    activeTx := some c4Tx
    history := [c4Hist]
    resellers := []
    resellerSales := [] }

/-- An active rental for the cancel-refused scenario. -/
def c5Tx : ActiveTx :=
  { id := "T5", number := "555", service := "philippines_51", price := 52,
    basePrice := 52, commission := 0, resellerId := none,
    startTime := 0, expiresAt := 900000 }

/-- State with the active rental `c5Tx`. -/
def c5Db : Db :=
  { user := { uid := "u5", wallet := 10, apiRequests := 1, apiSuccess := 1,
              apiFailed := 0, totalSpent := 52, referredBy := none }
    activeTx := some c5Tx
    history := []
    resellers := []
    resellerSales := [] }

/-- An already-active rental, present while a second Acquire is attempted. -/
def c7Tx : ActiveTx :=
  { id := "OLD", number := "111", service := "india_115", price := 103,
    basePrice := 103, commission := 0, resellerId := none,
    startTime := 0, expiresAt := 900000 }

/-- State with balance 200 and the rental `c7Tx` still active. -/
def c7Db : Db :=
  { user := { uid := "u7", wallet := 200, apiRequests := 5, apiSuccess := 5,
              apiFailed := 0, totalSpent := 500, referredBy := none }
    activeTx := some c7Tx
    history := []
    resellers := []
    resellerSales := [] }

/-- A reseller record whose owning account (`userId`) is the purchaser
`u8` — the self-referral configuration. -/
def c8Res : Reseller :=
  { userId := "u8", commissionPercent := some 15, wallet := 0,
    totalSales := 0, totalCommission := 0, referralCount := 0, lastSale := 0 }

/-- State in which account `u8` (balance 60) purchases with its own
referral code `RSSELF`. -/
def c8Db : Db :=
  { user := { uid := "u8", wallet := 60, apiRequests := 0, apiSuccess := 0,
              apiFailed := 0, totalSpent := 0, referredBy := none }
    activeTx := none
    history := []
    resellers := [("RSSELF", c8Res)]
    resellerSales := [] }

/-- State `c8Db` after referral resolution persisted the first-attribution
referrer (`referredBy := RSSELF`). -/
def c8Db1 : Db :=
  { c8Db with user := { c8Db.user with referredBy := some "RSSELF" } }

/-- The purchase context `/api/getNumber` hands to its provider phase in
the `c8Db` scenario: `philippines_51` at base 52, marked up 15% to 60. -/
def c8Ctx : PurchaseCtx :=
  { country := "philippines_51"
    service := { code := "51", name := "WhatsApp Philippines",
                 country := "Philippines", price := 52, flag := "🇵🇭" }
    finalPrice := 60
    commission := 8
    resellerId := some "RSSELF" }

/-! ## Theorems -/

theorem txStep_preserves (wallet : Int) (t : LTx)
    (hw : 0 ≤ wallet) (ht : TxOk t) :
    0 ≤ (txStep wallet t).1 ∧ TxOk (txStep wallet t).2 := by
  obtain ⟨hamt, hobs⟩ := ht
  cases hpc : t.pc with
  | start =>
      simp [txStep, hpc, TxOk, pcObsOk, hamt, hw]
  | readDone obs =>
      rw [hpc] at hobs
      simp only [pcObsOk] at hobs
      cases hk : t.kind with
      | debit =>
          by_cases hlt : obs < t.amount
          · simp [txStep, hpc, hk, hlt, TxOk, pcObsOk, hamt, hw]
          · refine ⟨?_, ?_⟩
            · simp only [txStep, hpc, hk, if_neg hlt]
              omega
            · simp [txStep, hpc, hk, hlt, TxOk, pcObsOk, hamt]
      | credit =>
          refine ⟨?_, ?_⟩
          · simp only [txStep, hpc, hk]
            omega
          · simp [txStep, hpc, hk, TxOk, pcObsOk, hamt]
  | ok =>
      simp [txStep, hpc, TxOk, pcObsOk, hamt, hw]
  | failed =>
      simp [txStep, hpc, TxOk, pcObsOk, hamt, hw]

theorem sysStep_preserves (s : LedgerSys) (i : Nat) (h : SysInv s) :
    SysInv (sysStep s i) := by
  obtain ⟨hw, htx⟩ := h
  obtain ⟨h1, h2⟩ := txStep_preserves s.wallet (s.txs i) hw (htx i)
  refine ⟨h1, fun j => ?_⟩
  by_cases hji : j = i
  · subst hji
    simpa [sysStep, Function.update] using h2
  · simpa [sysStep, Function.update, hji] using htx j

theorem runSched_preserves (sched : List Nat) (s : LedgerSys) (h : SysInv s) :
    SysInv (runSched s sched) := by
  induction sched generalizing s with
  | nil => simpa [runSched] using h
  | cons i rest ih =>
      have := sysStep_preserves s i h
      simpa [runSched] using ih (sysStep s i) this

theorem applyLedgerOp_req_eq_succ (a : Account) (op : LedgerOp)
    (h : a.apiRequests = a.apiSuccess) :
    (applyLedgerOp a op).apiRequests = (applyLedgerOp a op).apiSuccess := by
  cases op with
  | debit amount =>
      by_cases hlt : a.wallet < amount
      · simp [applyLedgerOp, deductBalance, hlt, h]
      · simp [applyLedgerOp, deductBalance, hlt, h]
  | refund amount => simp [applyLedgerOp, refundBalance, h]

theorem applyLedgerOps_req_eq_succ (ops : List LedgerOp) (a : Account)
    (h : a.apiRequests = a.apiSuccess) :
    (applyLedgerOps a ops).apiRequests = (applyLedgerOps a ops).apiSuccess := by
  induction ops generalizing a with
  | nil => simpa [applyLedgerOps] using h
  | cons op rest ih =>
      simpa [applyLedgerOps] using ih (applyLedgerOp a op) (applyLedgerOp_req_eq_succ a op h)

/-- Lemma: `Math.round` of `n / 100` over the rationals agrees with the integer
round-half-up form `(n + 50) / 100`. -/
theorem jsMathRound_div100 (n : ℤ) :
    jsMathRound ((n : ℚ) / 100) = (n + 50) / 100 := by
  have h : ((n : ℚ) / 100 + 1 / 2) = ((2 * n + 100 : ℤ) : ℚ) / ((200 : ℕ) : ℚ) := by
    push_cast
    ring
  have h2 : (2 * n + 100 : ℤ) / 200 = (n + 50) / 100 := by
    have e : (2 * n + 100 : ℤ) = 2 * (n + 50) := by ring
    rw [e, show (200 : ℤ) = 2 * 100 by norm_num]
    exact Int.mul_ediv_mul_of_pos _ _ (by norm_num)
  rw [jsMathRound, h, Rat.floor_intCast_div_natCast]
  simpa using h2

/-- Closed integer form of the source's price computation: the `ℚ`-level
`Math.round` collapses to integer arithmetic. -/
theorem calculatePriceWithCommission_eval (b pct : ℤ) :
    calculatePriceWithCommission b pct = b + (b * pct + 50) / 100 := by
  show b + jsMathRound (((b * pct : ℤ) : ℚ) / 100) = _
  rw [jsMathRound_div100 (b * pct)]

/-! ## Structural lemmas about the `/api/getNumber` handler -/

/-- Referral resolution touches at most `user.referredBy`: wallet, counters,
the rental slot, history and the reseller tables all pass through
unchanged. -/
theorem resolveReferral_fields (db : Db) (ref rr : Option String) (b : Int) :
    (resolveReferral db ref rr b).1.user.uid = db.user.uid ∧
    (resolveReferral db ref rr b).1.user.wallet = db.user.wallet ∧
    (resolveReferral db ref rr b).1.user.apiRequests = db.user.apiRequests ∧
    (resolveReferral db ref rr b).1.user.apiSuccess = db.user.apiSuccess ∧
    (resolveReferral db ref rr b).1.user.apiFailed = db.user.apiFailed ∧
    (resolveReferral db ref rr b).1.user.totalSpent = db.user.totalSpent ∧
    (resolveReferral db ref rr b).1.activeTx = db.activeTx ∧
    (resolveReferral db ref rr b).1.history = db.history ∧
    (resolveReferral db ref rr b).1.resellers = db.resellers ∧
    (resolveReferral db ref rr b).1.resellerSales = db.resellerSales := by
  cases hc : (ref.orElse fun _ => db.user.referredBy).orElse fun _ => rr with
  | none => simp [resolveReferral, hc]
  | some code =>
      cases hr : lookupAssoc db.resellers code with
      | none => simp [resolveReferral, hc, hr]
      | some reseller =>
          simp only [resolveReferral, hc, hr]
          by_cases h3 : db.user.referredBy = none <;> simp [h3]

/-- If phase 1 of `/api/getNumber` hands control to the provider call, the
state it passes on differs from the request state in at most
`user.referredBy`, and its wallet covers the final price. -/
theorem getNumberPhase1_ok (db : Db) (c ref rr : Option String) (db1 : Db)
    (ctx : PurchaseCtx)
    (h : getNumberPhase1 db c ref rr = (db1, Except.ok ctx)) :
    db1.user.uid = db.user.uid ∧ db1.user.wallet = db.user.wallet ∧
    db1.activeTx = db.activeTx ∧ db1.history = db.history ∧
    db1.resellers = db.resellers ∧ db1.resellerSales = db.resellerSales ∧
    ctx.finalPrice ≤ db1.user.wallet := by
  cases c with
  | none => simp [getNumberPhase1] at h
  | some country =>
      cases hl : lookupAssoc countries country with
      | none => simp [getNumberPhase1, hl] at h
      | some service =>
          simp only [getNumberPhase1, hl] at h
          by_cases hw : (resolveReferral db ref rr service.price).1.user.wallet <
              (resolveReferral db ref rr service.price).2.1
          · simp [hw] at h
          · simp only [if_neg hw, Prod.mk.injEq, Except.ok.injEq] at h
            obtain ⟨hdb, hctx⟩ := h
            have hf := resolveReferral_fields db ref rr service.price
            rw [hdb] at hf
            refine ⟨hf.1, hf.2.1, hf.2.2.2.2.2.2.1, hf.2.2.2.2.2.2.2.1,
              hf.2.2.2.2.2.2.2.2.1, hf.2.2.2.2.2.2.2.2.2, ?_⟩
            rw [← hctx, ← hdb]
            exact le_of_not_lt hw

/-- If phase 2 of `/api/getNumber` reports a purchase, then the final price
was debited from the wallet, the active slot now holds the freshly parsed
transaction (15-minute TTL from `now`), and the reported price is the
context's final price. -/
theorem getNumberPhase2_purchased (db : Db) (ctx : PurchaseCtx) (data : String)
    (now : Int) (db2 : Db) (t p : String) (fp nb : Int)
    (h : getNumberPhase2 db ctx data now = (db2, GetNumberOutcome.purchased t p fp nb)) :
    fp = ctx.finalPrice ∧
    t = (jsSplit data ':').getD 1 "" ∧
    p = (jsSplit data ':').getD 2 "" ∧
    db2.user.wallet = db.user.wallet - ctx.finalPrice ∧
    nb = db.user.wallet - ctx.finalPrice ∧
    db2.activeTx = some
      { id := t, number := p, service := ctx.country, price := ctx.finalPrice,
        basePrice := ctx.service.price, commission := ctx.commission,
        resellerId := ctx.resellerId, startTime := now, expiresAt := now + ttlMs } := by
  simp only [getNumberPhase2] at h
  split at h
  · split at h
    · cases hd : deductBalance db.user ctx.finalPrice with
      | none => rw [hd] at h; simp at h
      | some r =>
          obtain ⟨user1, newBal⟩ := r
          rw [hd] at h
          rw [Prod.mk.injEq] at h
          obtain ⟨hdb, hout⟩ := h
          have hd' := hd
          simp only [deductBalance] at hd'
          split at hd'
          · exact absurd hd' (by simp)
          · rw [Option.some.injEq, Prod.mk.injEq] at hd'
            obtain ⟨hu1, hnb⟩ := hd'
            injection hout with ht hp hfp hnb2
            have huser : db2.user = user1 := by
              rw [← hdb]
              cases hri : ctx.resellerId with
              | none => rfl
              | some rid => by_cases hcm : 0 < ctx.commission <;> simp [hcm]
            have hact : db2.activeTx = some
                { id := (jsSplit data ':').getD 1 ""
                  number := (jsSplit data ':').getD 2 ""
                  service := ctx.country, price := ctx.finalPrice,
                  basePrice := ctx.service.price, commission := ctx.commission,
                  resellerId := ctx.resellerId, startTime := now,
                  expiresAt := now + ttlMs } := by
              rw [← hdb]
              cases hri : ctx.resellerId with
              | none => rfl
              | some rid => by_cases hcm : 0 < ctx.commission <;> simp [hcm]
            refine ⟨hfp.symm, ht.symm, hp.symm, ?_, ?_, ?_⟩
            · rw [huser, ← hu1]
            · rw [← hnb2, ← hnb]
            · rw [hact, ← ht, ← hp]
    · simp at h
  · split at h
    · simp at h
    · split at h
      · simp at h
      · simp at h

/-- If the whole `/api/getNumber` handler reports a purchase, the wallet
dropped by exactly the reported price and the active slot holds the new
rental, started at `now` with price equal to the amount debited. -/
theorem getNumber_purchased (db : Db) (c ref rr : Option String) (data : String)
    (now : Int) (db2 : Db) (t p : String) (fp nb : Int)
    (h : getNumber db c ref rr data now = (db2, GetNumberOutcome.purchased t p fp nb)) :
    ∃ ctx : PurchaseCtx,
      fp = ctx.finalPrice ∧
      db2.user.wallet = db.user.wallet - fp ∧
      db2.activeTx = some
        { id := t, number := p, service := ctx.country, price := fp,
          basePrice := ctx.service.price, commission := ctx.commission,
          resellerId := ctx.resellerId, startTime := now,
          expiresAt := now + ttlMs } := by
  unfold getNumber at h
  rcases hp1 : getNumberPhase1 db c ref rr with ⟨dbA, res⟩
  rw [hp1] at h
  cases res with
  | error e => simp at h
  | ok ctx =>
      obtain ⟨hfp, _, _, hw2, _, hact⟩ :=
        getNumberPhase2_purchased dbA ctx data now db2 t p fp nb h
      obtain ⟨_, hwA, _⟩ := getNumberPhase1_ok db c ref rr dbA ctx hp1
      refine ⟨ctx, hfp, ?_, ?_⟩
      · rw [hw2, hwA, hfp]
      · rw [hact, hfp]

/-- C2: for every account and every sequence of debit (`deductBalance`) and
credit (`refundBalance`) operations with non-negative amounts, the wallet
balance stays ≥ 0: a debit whose amount exceeds the current balance fails
(throws, modelled as `none`) and leaves the balance unchanged, and no
interleaving of the reads and writes these calls perform — modelled by
`runSched` over any schedule — can drive the balance negative. -/
theorem c2_wallet_never_negative :
    (∀ (a : Account) (amount : Int), a.wallet < amount → deductBalance a amount = none) ∧
    (∀ (wallet : Int) (txs : Nat → LTx) (sched : List Nat),
        0 ≤ wallet →
        (∀ i, 0 ≤ (txs i).amount ∧ (txs i).pc = TxPc.start) →
        0 ≤ (runSched { wallet := wallet, txs := txs } sched).wallet) := by
  constructor
  · intro a amount h
    simp [deductBalance, h]
  · intro wallet txs sched hw hts
    have hinv : SysInv { wallet := wallet, txs := txs } := by
      refine ⟨hw, fun i => ⟨(hts i).1, ?_⟩⟩
      rw [(hts i).2]
      trivial
    exact (runSched_preserves sched _ hinv).1

/-- Witness for C2: a concrete failing debit, and a concrete interleaving of
a debit of 3 and a credit of 2 against balance 5 ending non-negative. -/
theorem c2_wallet_never_negative_witness :
    deductBalance
      { uid := "w2", wallet := 2, apiRequests := 0, apiSuccess := 0,
        apiFailed := 0, totalSpent := 0, referredBy := none } 5 = none ∧
    0 ≤ (runSched
          { wallet := 5
            txs := fun i =>
              if i = 0 then { kind := TxKind.debit, amount := 3, pc := TxPc.start }
              else { kind := TxKind.credit, amount := 2, pc := TxPc.start } }
          [0, 1, 0, 1]).wallet :=
  ⟨c2_wallet_never_negative.1 _ 5 (by decide),
   c2_wallet_never_negative.2 5 _ [0, 1, 0, 1] (by decide)
     (fun i => by by_cases h : i = 0 <;> simp [h])⟩

/-- C6: for a percentage partner rule the charged price is
`finalPrice = basePrice + round(basePrice * pct / 100)` with round-half-up
integer rounding (`specRoundHalfUp`, the spec's wording, shown to coincide
with the source's `basePrice + Math.round(basePrice * pct / 100)`), the
commission is `finalPrice - basePrice`, and in particular `basePrice = 52`,
`pct = 15` gives `finalPrice = 60` with the partner's pending `wallet`
growing by exactly 8 under `updateResellerStats`. -/
theorem c6_percentage_commission :
    (∀ b pct : ℕ,
        calculatePriceWithCommission b pct = (b : ℤ) + specRoundHalfUp (b * pct) 100) ∧
    calculatePriceWithCommission 52 15 = 60 ∧
    (∀ (r : Reseller) (now : Int),
        (updateResellerStats r 60 (calculatePriceWithCommission 52 15 - 52) now).wallet =
          r.wallet + 8) := by
  have hgen : ∀ b pct : ℕ,
      calculatePriceWithCommission b pct = (b : ℤ) + specRoundHalfUp (b * pct) 100 := by
    intro b pct
    show (b : ℤ) + jsMathRound (((b : ℤ) * (pct : ℤ) : ℤ) / (100 : ℚ)) = _
    rw [jsMathRound_div100 ((b : ℤ) * (pct : ℤ))]
    simp only [specRoundHalfUp]
    rw [show (100 : ℕ) / 2 = 50 from rfl, Int.ofNat_ediv]
    push_cast
    ring
  have h52 : calculatePriceWithCommission 52 15 = 60 := by
    have h := hgen 52 15
    norm_num [specRoundHalfUp] at h
    exact_mod_cast h
  refine ⟨hgen, h52, fun r now => ?_⟩
  rw [h52]
  simp [updateResellerStats]

/-- C9: the source's `deductBalance` is a naive read-then-write, not an
atomic read-modify-write: two concurrent debits of 100 against a balance of
100 can interleave read₁, read₂, write₁, write₂ so that both observe the
same balance 100, both pass the insufficiency check, and both finish `ok` —
a double-spend of 200 from a balance of 100 (ending balance 0).  This
evaluates the interleavable embedding of src/api/index.js:117-148 at that
failing input. -/
theorem c9_double_spend_interleaving :
    ((runSched
        { wallet := 100, txs := fun _ => { kind := TxKind.debit, amount := 100, pc := TxPc.start } }
        [0, 1]).txs 0).pc = TxPc.readDone 100 ∧
    ((runSched
        { wallet := 100, txs := fun _ => { kind := TxKind.debit, amount := 100, pc := TxPc.start } }
        [0, 1]).txs 1).pc = TxPc.readDone 100 ∧
    ((runSched
        { wallet := 100, txs := fun _ => { kind := TxKind.debit, amount := 100, pc := TxPc.start } }
        [0, 1, 0, 1]).txs 0).pc = TxPc.ok ∧
    ((runSched
        { wallet := 100, txs := fun _ => { kind := TxKind.debit, amount := 100, pc := TxPc.start } }
        [0, 1, 0, 1]).txs 1).pc = TxPc.ok ∧
    (runSched
        { wallet := 100, txs := fun _ => { kind := TxKind.debit, amount := 100, pc := TxPc.start } }
        [0, 1, 0, 1]).wallet = 0 := by
  decide

/-- C10: every successful `deductBalance` increments `apiRequests` and
`apiSuccess` together by exactly 1 and leaves `apiFailed` alone;
`refundBalance` touches only `apiFailed`; hence for every account created by
registration (both counters 0) whose counters are mutated only by
debit/refund, `apiRequests = apiSuccess` after any sequence of ledger
operations. -/
theorem c10_request_success_counters :
    (∀ (a : Account) (amount : Int) (a' : Account) (nb : Int),
        deductBalance a amount = some (a', nb) →
        a'.apiRequests = a.apiRequests + 1 ∧ a'.apiSuccess = a.apiSuccess + 1 ∧
          a'.apiFailed = a.apiFailed) ∧
    (∀ (a : Account) (amount : Int),
        (refundBalance a amount).1.apiRequests = a.apiRequests ∧
        (refundBalance a amount).1.apiSuccess = a.apiSuccess ∧
        (refundBalance a amount).1.apiFailed = a.apiFailed + 1) ∧
    (∀ (uid : String) (referredBy : Option String) (ops : List LedgerOp),
        (applyLedgerOps (registerUserData uid referredBy) ops).apiRequests =
          (applyLedgerOps (registerUserData uid referredBy) ops).apiSuccess) := by
  refine ⟨?_, ?_, ?_⟩
  · intro a amount a' nb h
    by_cases hlt : a.wallet < amount
    · simp [deductBalance, hlt] at h
    · simp only [deductBalance, if_neg hlt, Option.some.injEq, Prod.mk.injEq] at h
      obtain ⟨ha, _⟩ := h
      rw [← ha]
      simp
  · intro a amount
    simp [refundBalance]
  · intro uid referredBy ops
    exact applyLedgerOps_req_eq_succ ops (registerUserData uid referredBy)
      (by simp [registerUserData])

/-- Witness for C10: a concrete successful debit of 4 against balance 10
bumping both counters from 0 to 1, and a concrete op sequence on a freshly
registered account keeping `apiRequests = apiSuccess`. -/
theorem c10_request_success_counters_witness :
    (({ uid := "w10", wallet := 6, apiRequests := 1, apiSuccess := 1,
        apiFailed := 0, totalSpent := 4, referredBy := none } : Account).apiRequests =
        ({ uid := "w10", wallet := 10, apiRequests := 0, apiSuccess := 0,
           apiFailed := 0, totalSpent := 0, referredBy := none } : Account).apiRequests + 1 ∧
      ({ uid := "w10", wallet := 6, apiRequests := 1, apiSuccess := 1,
         apiFailed := 0, totalSpent := 4, referredBy := none } : Account).apiSuccess =
        ({ uid := "w10", wallet := 10, apiRequests := 0, apiSuccess := 0,
           apiFailed := 0, totalSpent := 0, referredBy := none } : Account).apiSuccess + 1 ∧
      ({ uid := "w10", wallet := 6, apiRequests := 1, apiSuccess := 1,
         apiFailed := 0, totalSpent := 4, referredBy := none } : Account).apiFailed =
        ({ uid := "w10", wallet := 10, apiRequests := 0, apiSuccess := 0,
           apiFailed := 0, totalSpent := 0, referredBy := none } : Account).apiFailed) ∧
    (applyLedgerOps (registerUserData "w10" none)
        [LedgerOp.refund 7, LedgerOp.debit 3, LedgerOp.debit 99]).apiRequests =
      (applyLedgerOps (registerUserData "w10" none)
        [LedgerOp.refund 7, LedgerOp.debit 3, LedgerOp.debit 99]).apiSuccess :=
  ⟨c10_request_success_counters.1
      { uid := "w10", wallet := 10, apiRequests := 0, apiSuccess := 0,
        apiFailed := 0, totalSpent := 0, referredBy := none } 4
      { uid := "w10", wallet := 6, apiRequests := 1, apiSuccess := 1,
        apiFailed := 0, totalSpent := 4, referredBy := none } 6 (by decide),
   c10_request_success_counters.2.2 "w10" none
      [LedgerOp.refund 7, LedgerOp.debit 3, LedgerOp.debit 99]⟩

/-- C3: an Acquire (`/api/getNumber`) whose final price exceeds the wallet
balance fails with the 402 insufficient-funds early error: the balance and
all counters are unchanged (so `deductBalance` was never invoked), no rental
slot is written, no history is appended, the reseller tables are untouched —
and the result is the same for every provider response, i.e. the numbering
provider is never consulted on this path. -/
theorem c3_insufficient_funds_rejects :
    ∀ (db : Db) (country : String) (service : Service) (ref rr : Option String)
      (providerData : String) (now : Int),
      lookupAssoc countries country = some service →
      db.user.wallet < (resolveReferral db ref rr service.price).2.1 →
      getNumber db (some country) ref rr providerData now =
        ((resolveReferral db ref rr service.price).1,
          GetNumberOutcome.earlyError GetNumberEarly.insufficientFunds) ∧
      (resolveReferral db ref rr service.price).1.user.wallet = db.user.wallet ∧
      (resolveReferral db ref rr service.price).1.user.apiRequests = db.user.apiRequests ∧
      (resolveReferral db ref rr service.price).1.user.apiSuccess = db.user.apiSuccess ∧
      (resolveReferral db ref rr service.price).1.user.apiFailed = db.user.apiFailed ∧
      (resolveReferral db ref rr service.price).1.user.totalSpent = db.user.totalSpent ∧
      (resolveReferral db ref rr service.price).1.activeTx = db.activeTx ∧
      (resolveReferral db ref rr service.price).1.history = db.history ∧
      (resolveReferral db ref rr service.price).1.resellers = db.resellers ∧
      (resolveReferral db ref rr service.price).1.resellerSales = db.resellerSales := by
  intro db country service ref rr data now hl hw
  have hf := resolveReferral_fields db ref rr service.price
  have hw1 : (resolveReferral db ref rr service.price).1.user.wallet <
      (resolveReferral db ref rr service.price).2.1 := by
    rw [hf.2.1]
    exact hw
  refine ⟨?_, hf.2.1, hf.2.2.1, hf.2.2.2.1, hf.2.2.2.2.1, hf.2.2.2.2.2.1,
    hf.2.2.2.2.2.2.1, hf.2.2.2.2.2.2.2.1, hf.2.2.2.2.2.2.2.2.1,
    hf.2.2.2.2.2.2.2.2.2⟩
  have h1 : getNumberPhase1 db (some country) ref rr =
      ((resolveReferral db ref rr service.price).1,
        Except.error GetNumberEarly.insufficientFunds) := by
    simp only [getNumberPhase1, hl, if_pos hw1]
  simp only [getNumber, h1]

/-- Witness for C3: the spec scenario — balance 100, `india_115` (base price
103, no referral) — fails with the 402 early error and changes nothing. -/
theorem c3_insufficient_funds_rejects_witness :
    getNumber c3Db (some "india_115") none none "ACCESS_NUMBER:TX:999" 0 =
      ((resolveReferral c3Db none none (103 : Int)).1,
        GetNumberOutcome.earlyError GetNumberEarly.insufficientFunds) ∧
    (resolveReferral c3Db none none (103 : Int)).1.user.wallet = c3Db.user.wallet ∧
    (resolveReferral c3Db none none (103 : Int)).1.user.apiRequests = c3Db.user.apiRequests ∧
    (resolveReferral c3Db none none (103 : Int)).1.user.apiSuccess = c3Db.user.apiSuccess ∧
    (resolveReferral c3Db none none (103 : Int)).1.user.apiFailed = c3Db.user.apiFailed ∧
    (resolveReferral c3Db none none (103 : Int)).1.user.totalSpent = c3Db.user.totalSpent ∧
    (resolveReferral c3Db none none (103 : Int)).1.activeTx = c3Db.activeTx ∧
    (resolveReferral c3Db none none (103 : Int)).1.history = c3Db.history ∧
    (resolveReferral c3Db none none (103 : Int)).1.resellers = c3Db.resellers ∧
    (resolveReferral c3Db none none (103 : Int)).1.resellerSales = c3Db.resellerSales :=
  c3_insufficient_funds_rejects c3Db "india_115"
    { code := "115", name := "WhatsApp Indian", country := "India",
      price := 103, flag := "🇮🇳" }
    none none "ACCESS_NUMBER:TX:999" 0 (by decide) (by decide)

/-- C4: a Poll (`/api/getOtp`) on the active rental whose elapsed time
exceeds the 15-minute TTL transitions it to expired — the slot is removed,
the history record is marked `expired`, and the time-expired failure is
returned — with a right-hand side that does not mention the provider
response at all (the TTL check runs before the provider call, so this holds
regardless of, and without consulting, any provider response content); and
the expired outcome can only arise from such a poll: a poll at or before the
deadline never yields it. -/
theorem c4_poll_after_ttl_expires :
    ∀ (db : Db) (tx : ActiveTx) (id : String) (now : Int) (providerData : String),
      db.activeTx = some tx → tx.id = id →
      (ttlMs < now - tx.startTime →
        getOtp db id now providerData =
          ({ db with activeTx := none, history := markHistExpired db.history id now },
            GetOtpOutcome.expired)) ∧
      (now - tx.startTime ≤ ttlMs →
        (getOtp db id now providerData).2 ≠ GetOtpOutcome.expired) := by
  intro db tx id now data hact hid
  constructor
  · intro hlt
    simp only [getOtp, hact]
    rw [if_neg (by simp [hid]), if_pos hlt]
  · intro hle
    simp only [getOtp, hact]
    rw [if_neg (by simp [hid]), if_neg (not_lt.mpr hle)]
    cases hm : otpMatch data <;> simp [hm]

/-- Witness for C4: polling `c4Tx` (acquired at time 0) at `900001` ms —
one past the TTL — expires it even though the provider response contains a
six-digit code. -/
theorem c4_poll_after_ttl_expires_witness :
    getOtp c4Db "T4" 900001 "OTP 123456 here" =
      ({ c4Db with
          activeTx := none
          history := markHistExpired c4Db.history "T4" 900001 },
        GetOtpOutcome.expired) :=
  (c4_poll_after_ttl_expires c4Db c4Tx "T4" 900001 "OTP 123456 here"
    rfl rfl).1 (by decide)

/-- C5: a Cancel (`/api/cancelNumber`) on the active rental finding a valid
OTP in the provider's status response is refused: the result is
`cannotCancel` carrying the OTP back to the caller, and the state is
returned entirely unchanged (no refund is credited, the slot stays). -/
theorem c5_cancel_refused_when_otp_present :
    ∀ (db : Db) (tx : ActiveTx) (id : String) (now : Int)
      (providerData code : String),
      db.activeTx = some tx → tx.id = id → otpMatch providerData = some code →
      cancelNumber db id now providerData = (db, CancelOutcome.cannotCancel code) := by
  intro db tx id now data code hact hid hm
  simp only [cancelNumber, hact]
  rw [if_neg (by simp [hid]), hm]

/-- Witness for C5: cancelling `c5Tx` while the provider status already
contains `654321` is refused with the OTP echoed back and no state change. -/
theorem c5_cancel_refused_when_otp_present_witness :
    cancelNumber c5Db "T5" 12345 "Your OTP is 654321 ok" =
      (c5Db, CancelOutcome.cannotCancel "654321") :=
  c5_cancel_refused_when_otp_present c5Db c5Tx "T5" 12345
    "Your OTP is 654321 ok" "654321" rfl rfl (by decide)

/-- C1: the Acquire → Cancel round-trip.  If `/api/getNumber` reports a
purchase at final price `fp` (which, per `getNumber_purchased`, was debited
in full, commission included), then a `/api/cancelNumber` on that
transaction before any OTP has arrived (`otpMatch data2 = none`) and within
the 15-minute TTL refunds exactly `fp`, so the wallet after Cancel equals
the wallet before Acquire. -/
theorem c1_acquire_cancel_roundtrip :
    ∀ (db : Db) (c ref rr : Option String) (data : String) (now : Int)
      (db1 : Db) (t p : String) (fp nb : Int) (now2 : Int) (data2 : String),
      getNumber db c ref rr data now = (db1, GetNumberOutcome.purchased t p fp nb) →
      otpMatch data2 = none →
      now2 - now < ttlMs →
      (cancelNumber db1 t now2 data2).1.user.wallet = db.user.wallet ∧
      (cancelNumber db1 t now2 data2).2 =
        CancelOutcome.cancelled fp ((ttlMs - (now2 - now)) / 1000) := by
  intro db c ref rr data now db1 t p fp nb now2 data2 hg hm httl
  obtain ⟨ctx, hfp, hw, hact⟩ := getNumber_purchased db c ref rr data now db1 t p fp nb hg
  simp only [cancelNumber, hact]
  rw [if_neg (by simp), hm, if_neg (by omega)]
  refine ⟨?_, rfl⟩
  simp only [refundBalance]
  rw [hw]
  ring

/-- Witness for C1: buy `india_115` for the full balance of 103 at `t=1000`
ms, cancel at `t=61000` ms (one minute later, no OTP yet): the refund is
103 and the balance returns to 103. -/
theorem c1_acquire_cancel_roundtrip_witness :
    (cancelNumber
        (getNumber c1Db (some "india_115") none none "ACCESS_NUMBER:T1:9990001" 1000).1
        "T1" 61000 "STATUS_WAIT_CODE").1.user.wallet = c1Db.user.wallet ∧
    (cancelNumber
        (getNumber c1Db (some "india_115") none none "ACCESS_NUMBER:T1:9990001" 1000).1
        "T1" 61000 "STATUS_WAIT_CODE").2 =
      CancelOutcome.cancelled 103 ((ttlMs - (61000 - 1000)) / 1000) :=
  c1_acquire_cancel_roundtrip c1Db (some "india_115") none none
    "ACCESS_NUMBER:T1:9990001" 1000
    (getNumber c1Db (some "india_115") none none "ACCESS_NUMBER:T1:9990001" 1000).1
    "T1" "9990001" 103 0 61000 "STATUS_WAIT_CODE"
    (by decide) (by decide) (by decide)

/-- C7 counterexample: with the rental `c7Tx` still active, a second Acquire
for `india_115` does **not** fail with any rental-in-progress error: the
provider grant is accepted, the purchase succeeds (103 debited from 200),
and the active slot is silently overwritten with the new transaction `NEW`
— the previous rental `OLD` is gone.  No `RentalInProgress` check exists in
the handler (src/api/index.js:826-1002 never reads the existing
`activeTransactions` slot). -/
theorem c7_counterexample_overwrites_active_rental :
    c7Db.activeTx = some c7Tx ∧
    c7Tx.id = "OLD" ∧
    (getNumber c7Db (some "india_115") none none "ACCESS_NUMBER:NEW:222" 50000).2 =
      GetNumberOutcome.purchased "NEW" "222" 103 97 ∧
    (getNumber c7Db (some "india_115") none none "ACCESS_NUMBER:NEW:222" 50000).1.activeTx =
      some { id := "NEW", number := "222", service := "india_115", price := 103,
             basePrice := 103, commission := 0, resellerId := none,
             startTime := 50000, expiresAt := 950000 } := by
  decide

/-- C7 (amended): an Acquire while an active rental exists is *not*
rejected — the handler performs no rental-in-progress check.  Whenever the
pre-provider phase hands control to the provider call and the provider
grants a number (`ACCESS_NUMBER` with at least three `:`-fields), the
purchase goes through and the active slot is silently overwritten with the
new rental, regardless of the existing active slot. -/
theorem c7_acquire_overwrites_active_rental :
    ∀ (db : Db) (oldTx : ActiveTx) (country : String) (ref rr : Option String)
      (data : String) (now : Int) (db1 : Db) (ctx : PurchaseCtx),
      db.activeTx = some oldTx →
      getNumberPhase1 db (some country) ref rr = (db1, Except.ok ctx) →
      jsIncludes data "ACCESS_NUMBER" = true →
      3 ≤ (jsSplit data ':').length →
      (getNumber db (some country) ref rr data now).2 =
        GetNumberOutcome.purchased ((jsSplit data ':').getD 1 "")
          ((jsSplit data ':').getD 2 "") ctx.finalPrice
          (db.user.wallet - ctx.finalPrice) ∧
      (getNumber db (some country) ref rr data now).1.activeTx = some
        { id := (jsSplit data ':').getD 1 ""
          number := (jsSplit data ':').getD 2 ""
          service := ctx.country
          price := ctx.finalPrice
          basePrice := ctx.service.price
          commission := ctx.commission
          resellerId := ctx.resellerId
          startTime := now
          expiresAt := now + ttlMs } := by
  intro db oldTx country ref rr data now db1 ctx hact hp1 hinc hlen
  obtain ⟨_, hwA, _, _, _, _, hge⟩ := getNumberPhase1_ok db (some country) ref rr db1 ctx hp1
  have hd : deductBalance db1.user ctx.finalPrice =
      some ({ db1.user with
                wallet := db1.user.wallet - ctx.finalPrice
                apiRequests := db1.user.apiRequests + 1
                apiSuccess := db1.user.apiSuccess + 1
                totalSpent := db1.user.totalSpent + ctx.finalPrice },
            db1.user.wallet - ctx.finalPrice) := by
    simp only [deductBalance, if_neg (not_lt.mpr hge)]
  simp only [getNumber, hp1]
  simp only [getNumberPhase2, if_pos hinc, if_pos hlen, hd]
  cases hri : ctx.resellerId with
  | none => exact ⟨by rw [hwA], rfl⟩
  | some rid =>
      by_cases hcm : 0 < ctx.commission
      · simp only [if_pos hcm]
        exact ⟨by rw [hwA], trivial⟩
      · simp only [if_neg hcm]
        exact ⟨by rw [hwA], trivial⟩

/-- Witness for the amended C7, at the counterexample's input: the second
Acquire succeeds and installs the `NEW` transaction over the active one. -/
theorem c7_acquire_overwrites_active_rental_witness :
    (getNumber c7Db (some "india_115") none none "ACCESS_NUMBER:NEW:222" 50000).2 =
      GetNumberOutcome.purchased "NEW" "222" 103 (c7Db.user.wallet - 103) ∧
    (getNumber c7Db (some "india_115") none none "ACCESS_NUMBER:NEW:222" 50000).1.activeTx =
      some { id := "NEW", number := "222", service := "india_115", price := 103,
             basePrice := 103, commission := 0, resellerId := none,
             startTime := 50000, expiresAt := 50000 + ttlMs } :=
  c7_acquire_overwrites_active_rental c7Db c7Tx "india_115" none none
    "ACCESS_NUMBER:NEW:222" 50000 c7Db
    { country := "india_115"
      service := { code := "115", name := "WhatsApp Indian", country := "India",
                   price := 103, flag := "🇮🇳" }
      finalPrice := 103
      commission := 0
      resellerId := none }
    rfl rfl (by decide) (by decide)

/-- C8 counterexample: the referral code `RSSELF` resolves to a reseller
record *owned by the purchasing account* `u8`, yet the purchase of
`philippines_51` (base 52) is charged the marked-up 60 and the partner's
pending wallet grows by 8 — the code has no self-referral check, so the
claim that a self-referred buyer pays the base price with partner counters
unchanged is false. -/
theorem c8_counterexample_self_referral_commissioned :
    lookupAssoc c8Db.resellers "RSSELF" = some c8Res ∧
    c8Res.userId = c8Db.user.uid ∧
    (getNumber c8Db (some "philippines_51") (some "RSSELF") none
        "ACCESS_NUMBER:T8:333" 0).2 =
      GetNumberOutcome.purchased "T8" "333" 60 0 ∧
    lookupAssoc
        (getNumber c8Db (some "philippines_51") (some "RSSELF") none
          "ACCESS_NUMBER:T8:333" 0).1.resellers "RSSELF" =
      some { userId := "u8", commissionPercent := some 15, wallet := 8,
             totalSales := 60, totalCommission := 8, referralCount := 1,
             lastSale := 0 } := by
  have hcalc : calculatePriceWithCommission 52 15 = 60 := by
    rw [calculatePriceWithCommission_eval]
    decide
  have hrr : resolveReferral c8Db (some "RSSELF") none 52 =
      (c8Db1, 60, 8, some "RSSELF") := by
    have h0 : resolveReferral c8Db (some "RSSELF") none 52 =
        (c8Db1, calculatePriceWithCommission 52 15,
          calculatePriceWithCommission 52 15 - 52, some "RSSELF") := rfl
    rw [h0, hcalc]
    norm_num
  have hp1 : getNumberPhase1 c8Db (some "philippines_51") (some "RSSELF") none =
      (c8Db1, Except.ok c8Ctx) := by
    simp only [getNumberPhase1,
      show lookupAssoc countries "philippines_51" =
          some { code := "51", name := "WhatsApp Philippines",
                 country := "Philippines", price := 52, flag := "🇵🇭" } from rfl,
      hrr]
    rw [if_neg (by decide)]
    rfl
  refine ⟨by decide, by decide, ?_, ?_⟩
  · simp only [getNumber, hp1]
    decide
  · simp only [getNumber, hp1]
    decide

/-- C8 (amended): self-referral is not special-cased.  When the supplied
referral code resolves to a partner record — even one owned by the
purchasing account itself — the commission markup is applied exactly as for
any other referral: the final price is
`calculatePriceWithCommission base (commissionPercent || 15)`, the
commission is the difference, and the sale is attributed to that code; no
error is raised. -/
theorem c8_self_referral_still_commissioned :
    ∀ (db : Db) (code : String) (rr : Option String) (b : Int) (res : Reseller),
      lookupAssoc db.resellers code = some res →
      res.userId = db.user.uid →
      (resolveReferral db (some code) rr b).2.1 =
        calculatePriceWithCommission b (jsNumOr res.commissionPercent 15) ∧
      (resolveReferral db (some code) rr b).2.2.1 =
        calculatePriceWithCommission b (jsNumOr res.commissionPercent 15) - b ∧
      (resolveReferral db (some code) rr b).2.2.2 = some code := by
  intro db code rr b res hl hown
  simp only [resolveReferral, Option.orElse, hl]
  by_cases h3 : db.user.referredBy = none <;> simp [h3]

/-- Witness for the amended C8 at the counterexample's state: the
self-owned code `RSSELF` yields the marked-up price and attribution. -/
theorem c8_self_referral_still_commissioned_witness :
    (resolveReferral c8Db (some "RSSELF") none 52).2.1 =
      calculatePriceWithCommission 52 (jsNumOr c8Res.commissionPercent 15) ∧
    (resolveReferral c8Db (some "RSSELF") none 52).2.2.1 =
      calculatePriceWithCommission 52 (jsNumOr c8Res.commissionPercent 15) - 52 ∧
    (resolveReferral c8Db (some "RSSELF") none 52).2.2.2 = some "RSSELF" :=
  c8_self_referral_still_commissioned c8Db "RSSELF" none 52 c8Res
    (by decide) (by decide)


end Wpotp
